import Mathlib

/-!
Verification development for the YuMi dual-arm robot driver
(src/python/arcor2_yumi/object_types/yumi.py).

The Python driver is shallowly embedded: numeric values on the wire are
modelled as rationals, the fixed-precision formatting and the trailing-zero
trimming of `YuMiArm._iter_to_str` are modelled character by character, and
the stateful coordinator methods (`set_v`, `recover`, `move_to_pose`,
`move_both_arms`) are modelled as explicit state passing respectively as
event traces of the externally visible actions they perform.

Rational values are represented with `Rat`; to keep every definition
executable by kernel reduction, arithmetic inside the executable pipeline is
expressed through `mkRat` and numerator/denominator operations
(`qmul`, `qscale`, `pyTrunc`, `roundHalfEvenFrac`), each accompanied by a
bridge lemma identifying it with the standard `Rat` operation.
-/

namespace Yumi

instance instDecEqExcept {ε α : Type} [DecidableEq ε] [DecidableEq α] :
    DecidableEq (Except ε α) := fun x y =>
  match x, y with
  | .ok a, .ok b => if h : a = b then isTrue (by rw [h]) else isFalse (by simp [h])
  | .error a, .error b => if h : a = b then isTrue (by rw [h]) else isFalse (by simp [h])
  | .ok _, .error _ => isFalse (by simp)
  | .error _, .ok _ => isFalse (by simp)

/-! ### Executable rational helpers and their bridges -/

/-- Rational multiplication, expressed through `mkRat` so that it evaluates
by kernel reduction. -/
def qmul (a b : ℚ) : ℚ := mkRat (a.num * b.num) (a.den * b.den)

theorem qmul_eq (a b : ℚ) : qmul a b = a * b := by
  rw [qmul, Rat.mkRat_eq_div]
  push_cast
  rw [← div_mul_div_comm, Rat.num_div_den, Rat.num_div_den]

/-- Multiplication of a rational by an integer scalar, expressed through
`mkRat`. -/
def qscale (k : Int) (q : ℚ) : ℚ := mkRat (k * q.num) q.den

theorem qscale_eq (k : Int) (q : ℚ) : qscale k q = (k : ℚ) * q := by
  rw [qscale, Rat.mkRat_eq_div]
  push_cast
  rw [mul_div_assoc, Rat.num_div_den]

/-- Python `int(x)` on a rational value: truncation toward zero, written by a
sign split over Euclidean division of the numerator by the denominator. -/
def pyTrunc (q : ℚ) : Int :=
  if 0 ≤ q.num then q.num / (q.den : Int) else -((-q.num) / (q.den : Int))

theorem pyTrunc_eq_floor (q : ℚ) (h : 0 ≤ q) : pyTrunc q = ⌊q⌋ := by
  rw [pyTrunc, if_pos (Rat.num_nonneg.mpr h), Rat.floor_def]

/-- Round the fraction `n / d` (with `d` positive) to the nearest integer,
ties to even, matching CPython rounding of an exactly representable tie. -/
def roundHalfEvenFrac (n d : Int) : Int :=
  let f := n / d
  let r2 := 2 * (n - f * d)
  if r2 < d then f
  else if d < r2 then f + 1
  else if f % 2 = 0 then f else f + 1

/-! ### Python string primitives used by the wire codec -/

/-- Python `s.rstrip(c)` for a single strip character: drop every trailing
occurrence of `c`. -/
def rstrip (c : Char) (s : String) : String :=
  ⟨(s.data.reverse.dropWhile (fun d => d == c)).reverse⟩

/-- Value of a list of ASCII decimal digit characters. -/
def digitsToNat (l : List Char) : Nat :=
  l.foldl (fun a c => a * 10 + (c.toNat - 48)) 0

/-- Python `int(token)` on a whitespace-free token: an optional sign followed
by at least one ASCII digit parses to an integer, anything else raises
`ValueError` (modelled as `none`).  Exotic forms CPython also accepts
(underscore grouping, non-ASCII digits) are outside the model. -/
def pyParseInt (s : String) : Option Int :=
  match s.data with
  | [] => none
  | '-' :: rest =>
      if !rest.isEmpty && rest.all Char.isDigit then some (-(digitsToNat rest : Int)) else none
  | '+' :: rest =>
      if !rest.isEmpty && rest.all Char.isDigit then some (digitsToNat rest : Int) else none
  | l => if l.all Char.isDigit then some (digitsToNat l : Int) else none

/-- Split a character list at every occurrence of `sep`, keeping empty
pieces, as Python `s.split(sep)` does for an explicit separator. -/
def splitCharAux (sep : Char) : List Char → List Char → List (List Char)
  | [], cur => [cur.reverse]
  | c :: rest, cur =>
      if c == sep then cur.reverse :: splitCharAux sep rest []
      else splitCharAux sep rest (c :: cur)

/-- Python `s.split(sep)` for a one-character separator. -/
def pySplitOn (sep : Char) (s : String) : List String :=
  (splitCharAux sep s.data []).map String.mk

/-- Split a character list on runs of whitespace, dropping empty pieces, as
Python `s.split()` with no argument does. -/
def wsplitAux : List Char → List Char → List (List Char)
  | [], cur => if cur.isEmpty then [] else [cur.reverse]
  | c :: rest, cur =>
      if c.isWhitespace then
        if cur.isEmpty then wsplitAux rest [] else cur.reverse :: wsplitAux rest []
      else wsplitAux rest (c :: cur)

/-- Python `s.split()` with no argument: split on whitespace runs. -/
def pySplitWs (s : String) : List String :=
  (wsplitAux s.data []).map String.mk

/-! ### The wire codec of `YuMiArm` -/

/-- Fixed-precision float formatting: the f format specifier with precision
`p` (precision 2 renders 750 as the six characters of 750.00).  The argument
is scaled by 10 ^ p, rounded to the nearest integer, and printed with exactly
`p` digits after the decimal point. -/
def formatFixed (p : Nat) (q : ℚ) : String :=
  let scaled := roundHalfEvenFrac (q.num * (10 : Int) ^ p) (q.den : Int)
  let sign := if scaled < 0 then "-" else ""
  let m := scaled.natAbs
  if p = 0 then sign ++ toString (m / 10 ^ p)
  else
    let fs := toString (m % 10 ^ p)
    let fpad := String.mk (List.replicate (p - fs.length) '0') ++ fs
    sign ++ toString (m / 10 ^ p) ++ "." ++ fpad

/-- Python integer formatting with the d format specifier. -/
def formatD (n : Int) : String := toString n

/-- The per-field trimming of `YuMiArm._iter_to_str`: format, then
`rstrip("0")`, then `rstrip(".")`. -/
def trimField (s : String) : String := rstrip '.' (rstrip '0' s)

/-- Model of `YuMiArm._iter_to_str`: each value is formatted by `template`,
trimmed of trailing zero characters and then of a trailing dot, and suffixed
with one space. -/
def iterToStr {α : Type} (template : α → String) (xs : List α) : String :=
  xs.foldl (fun acc v => acc ++ trimField (template v) ++ " ") ""

/-- Model of `YuMiArm._construct_req`: decimal opcode, one space, body, then
the hash terminator. -/
def constructReq (code : Nat) (body : String) : String :=
  toString code ++ " " ++ body ++ "#"

/-- Parse a decimal token back to a rational: a nonempty integer-digit part
and an optional dot followed by fraction digits.  This is the reading a
numeric parser on the controller side gives to a trimmed token. -/
def parseUnsigned (l : List Char) : Option ℚ :=
  let ip := l.takeWhile Char.isDigit
  let rest := l.drop ip.length
  if ip.isEmpty then none
  else
    match rest with
    | [] => some ((digitsToNat ip : Int) : ℚ)
    | '.' :: fp =>
        if fp.all Char.isDigit then
          some (mkRat (digitsToNat ip * 10 ^ fp.length + digitsToNat fp) (10 ^ fp.length))
        else none
    | _ => none

/-- Signed decimal token parser, see `parseUnsigned`. -/
def parseDecimal (s : String) : Option ℚ :=
  match s.data with
  | '-' :: rest => (parseUnsigned rest).map Neg.neg
  | l => parseUnsigned l

/-- Model of `YuMiArm.set_conf`: the conf integers are formatted with the d
specifier and framed under `CmdCodes.set_conf = 10`. -/
def set_conf (conf : List Int) : String :=
  constructReq 10 (iterToStr formatD conf)

/-! ### Session layer: request/response classification (`YumiSocket.send_request`
and `YuMiArm._request`) -/

/-- Model of the source `RequestPacket` named tuple. -/
structure RequestPacket where
  req : String
  timeout : ℚ
  return_res : Bool
deriving DecidableEq

/-- Model of the source `RawResponse` named tuple. -/
structure RawResponse where
  mirror_code : Int
  res_code : Int
  message : String
deriving DecidableEq

/-- Errors a request can surface: `comm` stands for `YuMiCommException` with
the message the source raises, `control` for `YuMiControlException`, which
carries the original request packet and the raw response. -/
inductive YumiErr where
  | comm (msg : String)
  | control (pkt : RequestPacket) (res : RawResponse)
deriving DecidableEq

/-- Model of the response handling in `YumiSocket.send_request`, applied to
the received byte string: an empty receive raises the empty-response
communication failure; otherwise the string is whitespace-split and the first
two tokens are parsed as integers, any IndexError or ValueError raising the
invalid-response communication failure; the remaining tokens joined by single
spaces form the message. -/
def send_request (recv : String) : Except YumiErr RawResponse :=
  if recv = "" then .error (.comm "Empty response.")
  else
    match pySplitWs recv with
    | t0 :: t1 :: rest =>
        match pyParseInt t0, pyParseInt t1 with
        | some a, some b => .ok ⟨a, b, String.intercalate " " rest⟩
        | _, _ => .error (.comm "Invalid response.")
    | _ => .error (.comm "Invalid response.")

/-- Model of `YuMiArm._request` applied to the received byte string: the
response is classified by `send_request`, then any response whose result code
differs from `ResCodes.success = 1` raises `YuMiControlException` carrying
the request packet and the raw response. -/
def armRequest (pkt : RequestPacket) (recv : String) : Except YumiErr RawResponse :=
  match send_request recv with
  | .error e => .error e
  | .ok res => if res.res_code ≠ 1 then .error (.control pkt res) else .ok res

/-! ### Joint validation and sorting (`YuMiArm._check_and_sort_joints`) -/

/-- Model of the `Joint` value type: a named scalar angle in radians. -/
structure Joint where
  name : String
  value : ℚ
deriving DecidableEq

/-- Outcomes of joint validation: `yumi` models a raised `YumiException`
with its message prefix, `indexError` models the uncaught Python
`IndexError` escaping from the read of `arr[2]`. -/
inductive CheckErr where
  | yumi (msg : String)
  | indexError
deriving DecidableEq

/-- Sort key used by `_check_and_sort_joints`: `int(x.name.split("_")[2])`.
The fallback values never matter because the key is only applied to joint
lists that already passed validation. -/
def jointKey (j : Joint) : Int :=
  (pyParseInt ((pySplitOn '_' j.name).getD 2 "")).getD 0

/-- Comparison of joints by their name index. -/
def jointLe (a b : Joint) : Prop := jointKey a ≤ jointKey b

instance : DecidableRel jointLe :=
  fun a b => inferInstanceAs (Decidable (jointKey a ≤ jointKey b))

instance : IsTotal Joint jointLe := ⟨fun a b => Int.le_total (jointKey a) (jointKey b)⟩

instance : IsTrans Joint jointLe := ⟨fun _ _ _ h1 h2 => le_trans h1 h2⟩

/-- Validation of one joint name, following the loop body of
`_check_and_sort_joints` exactly: the name is split on underscores, the index
component `arr[2]` is read first (an out-of-range read is the uncaught
IndexError), then parsed as an integer (failure raises the invalid-format
YumiException), then the part count, the first two parts, the index range,
and the side letter are checked. -/
def checkJointName (armName : String) (j : Joint) : Option CheckErr :=
  let arr := pySplitOn '_' j.name
  match arr.get? 2 with
  | none => some .indexError
  | some t =>
      match pyParseInt t with
      | none => some (.yumi ("Invalid format of joint name: " ++ j.name ++ "."))
      | some idx =>
          if arr.length ≠ 4 ∨ arr.getD 0 "" ≠ "yumi" ∨ arr.getD 1 "" ≠ "joint" ∨
              ¬(0 < idx ∧ idx ≤ 7) then
            some (.yumi ("Invalid format of joint name: " ++ j.name ++ "."))
          else if (arr.getD 3 "").length ≠ 1 ∨
              arr.getD 3 "" ≠ String.singleton (armName.front) then
            some (.yumi ("Joint name " ++ j.name ++ " not valid for " ++ armName ++ " arm."))
          else none

/-- The validation loop of `_check_and_sort_joints`: the first offending
joint decides the raised error. -/
def checkJoints (armName : String) : List Joint → Option CheckErr
  | [] => none
  | j :: rest =>
      match checkJointName armName j with
      | some e => some e
      | none => checkJoints armName rest

/-- Model of `YuMiArm._check_and_sort_joints`: a list whose length differs
from `JOINTS = 7` raises, then every joint name is validated, and finally the
list is sorted in place by the integer index in the name (the in-place sort
is modelled by returning the sorted list). -/
def check_and_sort_joints (armName : String) (joints : List Joint) :
    Except CheckErr (List Joint) :=
  if joints.length ≠ 7 then .error (.yumi "Invalid number of joints.")
  else
    match checkJoints armName joints with
    | some e => .error e
    | none => .ok (joints.insertionSort jointLe)

/-- Rational value of the 64-bit float `math.pi`. -/
def floatPi : ℚ := mkRat 884279719003555 281474976710656

/-- Model of `math.degrees`: multiplication by `180 / math.pi`, with
`math.pi` taken at its 64-bit float value. -/
def pyDegrees (q : ℚ) : ℚ :=
  mkRat (q.num * 180 * 281474976710656) (q.den * 884279719003555)

/-- Model of `YuMiArm._joints_to_str`: joint values are converted to degrees
and formatted with the f specifier at precision 2. -/
def jointsToStr (joints : List Joint) : String :=
  iterToStr (formatFixed 2) (joints.map (fun j => pyDegrees j.value))

/-- Model of `YuMiArm.goto_joints`: validate and sort, then frame the sorted
list under `CmdCodes.goto_joints = 2`. -/
def goto_joints (armName : String) (joints : List Joint) :
    Except CheckErr (List Joint × String) :=
  (check_and_sort_joints armName joints).map
    (fun sorted => (sorted, constructReq 2 (jointsToStr sorted)))

/-- Model of `YuMiArm.goto_joints_sync`: validate and sort, then frame the
sorted list under `CmdCodes.goto_joints_sync = 12`. -/
def goto_joints_sync (armName : String) (joints : List Joint) :
    Except CheckErr (List Joint × String) :=
  (check_and_sort_joints armName joints).map
    (fun sorted => (sorted, constructReq 12 (jointsToStr sorted)))

/-- Model of `YuMiArm.fk` up to the wire: the joint list is validated and
sorted, then framed under `CmdCodes.fk = 43`; the validation happens outside
the try block, so its exceptions propagate unchanged. -/
def fk (armName : String) (joints : List Joint) : Except CheckErr String :=
  (check_and_sort_joints armName joints).map
    (fun sorted => constructReq 43 (jointsToStr sorted))

/-- Structural reading of a valid joint name for the given arm: exactly the
four underscore-separated parts yumi, joint, an index token parsing to some
i with 1 ≤ i ≤ 7, and the first letter of the arm name. -/
def validJointName (armName : String) (j : Joint) : Prop :=
  ∃ t i, pySplitOn '_' j.name = ["yumi", "joint", t, String.singleton armName.front] ∧
    pyParseInt t = some i ∧ 0 < i ∧ i ≤ 7

example : checkJointName "left" ⟨"yumi_joint_3_l", 0⟩ = none := by decide
example : checkJointName "left" ⟨"yumi_joint_3_r", 0⟩ =
    some (.yumi "Joint name yumi_joint_3_r not valid for left arm.") := by decide
example : checkJointName "left" ⟨"elbow", 0⟩ = some .indexError := by decide

/-! ### Gripper operations (`YuMiArm.open_gripper`, `YuMiArm.close_gripper`) -/

/-- A raised Python `ValueError`. -/
inductive PyErr where
  | valueError
deriving DecidableEq

/-- The source constant `MAX_GRIPPER_FORCE = 20` newtons. -/
def MAX_GRIPPER_FORCE : ℚ := 20

/-- The source constant `MAX_GRIPPER_WIDTH = 0.02` meters. -/
def MAX_GRIPPER_WIDTH : ℚ := mkRat 1 50

/-- Model of `YuMiArm.close_gripper`: a force outside `[0, MAX_GRIPPER_FORCE]`
or a width outside `[0, MAX_GRIPPER_WIDTH]` raises `ValueError`; otherwise
the width is scaled to millimeters and the body is the f-precision-1 encoding
of `[force, width]`, with a trailing 0 field appended when `no_wait` is set,
framed under `CmdCodes.close_gripper = 20`. -/
def close_gripper (force width : ℚ) (noWait : Bool) : Except PyErr String :=
  if force < 0 ∨ MAX_GRIPPER_FORCE < force then .error .valueError
  else if width < 0 ∨ MAX_GRIPPER_WIDTH < width then .error .valueError
  else
    .ok (constructReq 20 (iterToStr (formatFixed 1)
      ([force, qscale 1000 width] ++ (if noWait then [(0 : ℚ)] else []))))

/-- Model of `YuMiArm.open_gripper`: no range check is performed; a missing
force defaults to `MAX_GRIPPER_FORCE`; when a width is given it is scaled to
millimeters and included; a trailing 0 field is appended when `no_wait` is
set; framed under `CmdCodes.open_gripper = 21`. -/
def open_gripper (force width : Option ℚ) (noWait : Bool) : String :=
  let f := force.getD MAX_GRIPPER_FORCE
  match width with
  | some w =>
      constructReq 21 (iterToStr (formatFixed 1)
        ([f, qscale 1000 w] ++ (if noWait then [(0 : ℚ)] else [])))
  | none =>
      constructReq 21 (iterToStr (formatFixed 1)
        ([f] ++ (if noWait then [(0 : ℚ)] else [])))

/-! ### Coordinator speed handling (`YuMi.set_v`, `YuMi.get_v`,
`YuMi.move_to_pose` speed argument) -/

/-- A wire command recorded against the arm that receives it. -/
structure WireCmd where
  arm : String
  req : String
deriving DecidableEq

/-- Model of `YuMi.construct_speed_data`: the tuple (tra, rot, tra, rot). -/
def construct_speed_data (tra rot : ℚ) : ℚ × ℚ × ℚ × ℚ := (tra, rot, tra, rot)

/-- Model of `YuMi.get_v`: speed data for speed number n with rot fixed at
500. -/
def get_v (n : Int) : ℚ × ℚ × ℚ × ℚ := construct_speed_data (n : ℚ) 500

/-- Model of `YuMiArm.set_speed`: the four speed data fields are encoded at
f precision 2 and framed under `CmdCodes.set_speed = 8`. -/
def set_speed_req (sd : ℚ × ℚ × ℚ × ℚ) : String :=
  constructReq 8 (iterToStr (formatFixed 2) [sd.1, sd.2.1, sd.2.2.1, sd.2.2.2])

/-- Model of `YuMi.set_v` as a state transformer on the speed cache
`self._speed`.  The guard returns early when the cache holds exactly the
requested n.  Otherwise `set_speed` is submitted to both arms; `succeeds`
says whether that pair of wire commands succeeded.  The returned cache is
unchanged in every case: the source never assigns `self._speed` after
issuing the commands (the only assignments in the source are the
initializer and `recover`, both storing None).  The final component records
whether the call completed without raising. -/
def set_v (cache : Option Int) (n : Int) (succeeds : Bool) :
    Option Int × List WireCmd × Bool :=
  if cache = some n then (cache, [], true)
  else
    let sd := get_v n
    (cache, [⟨"left", set_speed_req sd⟩, ⟨"right", set_speed_req sd⟩], succeeds)

/-- Speed number computed by `move_to_pose`, `move_to_joints` and
`move_both_arms`: `int(speed * self.settings.max_tcp_speed * METERS_TO_MM)`
with `METERS_TO_MM = 1000` and Python `int()` truncating toward zero. -/
def motionSpeedNumber (speed maxTcpSpeed : ℚ) : Int :=
  pyTrunc (qscale 1000 (qmul speed maxTcpSpeed))

/-- Python `round()` on a rational value: nearest integer, ties to even. -/
def pyRound (q : ℚ) : Int := roundHalfEvenFrac q.num (q.den : Int)

/-! ### Motion event traces (`YuMi.move_to_pose`, `YuMi.move_both_arms`) -/

/-- Externally visible events of one motion call. -/
inductive MotionEv where
  | acquireLock
  | setSpeed
  | submitTasks
  | cancelSet
  | runRecover
  | releaseLock
  | raiseImpossible
  | raiseMotionError
deriving DecidableEq

/-- The three ways the select-first wait of a motion can resolve. -/
inductive MotionOutcome where
  | success
  | motionError
  | programStopped
deriving DecidableEq

/-- Event trace of `YuMi.move_to_pose`.  The whole body runs inside
`with self._move_lock`, so the lock release happens when the block exits, on
every branch, after any call made inside it: on success the cancel event is
set and the block exits; on a `YumiException` from the motion task the
cancel event is set and the raise exits the block, releasing the lock before
the exception reaches the caller; on `ProgramStopped` from the supervisor,
`self.recover()` runs first, then the impossible-motion `YumiException` is
raised, the block exits releasing the lock, and the exception propagates. -/
def move_to_pose_trace : MotionOutcome → List MotionEv
  | .success =>
      [.acquireLock, .setSpeed, .submitTasks, .cancelSet, .releaseLock]
  | .motionError =>
      [.acquireLock, .setSpeed, .submitTasks, .cancelSet, .releaseLock, .raiseMotionError]
  | .programStopped =>
      [.acquireLock, .setSpeed, .submitTasks, .runRecover, .releaseLock, .raiseImpossible]

/-- Event trace of `YuMi.move_both_arms`.  Identical to `move_to_pose`
except that `set_v` is called before the lock is acquired. -/
def move_both_arms_trace : MotionOutcome → List MotionEv
  | .success =>
      [.setSpeed, .acquireLock, .submitTasks, .cancelSet, .releaseLock]
  | .motionError =>
      [.setSpeed, .acquireLock, .submitTasks, .cancelSet, .releaseLock, .raiseMotionError]
  | .programStopped =>
      [.setSpeed, .acquireLock, .submitTasks, .runRecover, .releaseLock, .raiseImpossible]

/-! ### Recovery (`YuMi.recover`, `YuMiArm.reconnect`) -/

/-- Externally visible actions of one `recover()` call.  Socket actions name
the arm and the port offset of the socket (0 main, 2 poses, 4 joints). -/
inductive RecEv where
  | stopRAPID
  | resetPP
  | startRAPID
  | closeSock (arm : String) (portOffset : Nat)
  | openSock (arm : String) (portOffset : Nat)
  | applyDefaultConfiguration
deriving DecidableEq

/-- Outcomes of the three RWS calls made by `recover()`. -/
structure RwsOutcome where
  stopOk : Bool
  resetOk : Bool
  startOk : Bool
deriving DecidableEq

/-- Event trace of `YuMiArm.reconnect`: `terminate()` closes the main, poses
and joints sockets, then three new sockets are opened at the same ports. -/
def reconnectTrace (arm : String) : List RecEv :=
  [.closeSock arm 0, .closeSock arm 2, .closeSock arm 4,
   .openSock arm 0, .openSock arm 2, .openSock arm 4]

/-- Model of `YuMi.recover` given the outcomes of the RWS calls and the
current speed cache.  It returns the action trace, whether the call
completed without raising, and the new speed cache.  `stop_RAPID` and
`reset_pp` are attempted unconditionally with their `RwsException` swallowed;
a failing `start_RAPID` raises a `YumiException` to the caller, leaving the
arms untouched and the speed cache unchanged; on success both arms are
reconnected, the default configuration is re-applied and the speed cache is
set to None. -/
def recover (o : RwsOutcome) (speedCache : Option Int) :
    List RecEv × Bool × Option Int :=
  let pre := [RecEv.stopRAPID, RecEv.resetPP, RecEv.startRAPID]
  if o.startOk then
    (pre ++ reconnectTrace "left" ++ reconnectTrace "right" ++
      [RecEv.applyDefaultConfiguration], true, none)
  else
    (pre, false, speedCache)

/-! ### Pose store and the wire-body builder (`YuMiArm._get_pose_body`) -/

/-- Model of the `Position` value type (meters). -/
structure Position where
  x : ℚ
  y : ℚ
  z : ℚ
deriving DecidableEq

/-- Model of the `Orientation` value type (unit quaternion components). -/
structure Orientation where
  x : ℚ
  y : ℚ
  z : ℚ
  w : ℚ
deriving DecidableEq

/-- Model of the `Pose` value type. -/
structure Pose where
  position : Position
  orientation : Orientation
deriving DecidableEq

instance : Inhabited Pose := ⟨⟨⟨0, 0, 0⟩, ⟨0, 0, 0, 1⟩⟩⟩

/-- In-place scalar multiplication of a `Position`, as used by
`pose.position *= METERS_TO_MM`. -/
def scalePosition (k : Int) (p : Position) : Position :=
  ⟨qscale k p.x, qscale k p.y, qscale k p.z⟩

/-- A heap of `Pose` objects: Python references are modelled as indices, so
that in-place mutation and `copy.deepcopy` are observable. -/
abbrev PoseStore := List Pose

/-- Model of `YuMiArm._get_pose_body` on the pose store.  The pose referred
to by `r` is deep-copied to a fresh reference, the copy alone has its
position scaled from meters to millimeters in place, and the body is encoded
from the copy: positions at f precision 2, quaternion components at
f precision 5, in the wire order x y z qx qy qz qw of the protocol
description. -/
def get_pose_body (σ : PoseStore) (r : Nat) : PoseStore × String :=
  let p := σ.getD r default
  let r1 := σ.length
  let σ1 := σ ++ [p]
  let σ2 := σ1.set r1 { p with position := scalePosition 1000 p.position }
  let q := σ2.getD r1 default
  (σ2,
    iterToStr (formatFixed 2) [q.position.x, q.position.y, q.position.z] ++
    iterToStr (formatFixed 5)
      [q.orientation.x, q.orientation.y, q.orientation.z, q.orientation.w])

/-- Model of `YuMiArm.goto_pose` with `relative=False`: the body is built by
`_get_pose_body` and framed under `goto_pose_linear = 1` when linear,
`goto_pose = 5` otherwise. -/
def goto_pose (σ : PoseStore) (r : Nat) (linear : Bool) : PoseStore × String :=
  let (σ2, body) := get_pose_body σ r
  (σ2, constructReq (if linear then 1 else 5) body)

/-- Model of `YuMiArm.goto_pose_sync` (`CmdCodes.goto_pose_sync = 11`). -/
def goto_pose_sync (σ : PoseStore) (r : Nat) : PoseStore × String :=
  let (σ2, body) := get_pose_body σ r
  (σ2, constructReq 11 body)

/-- Model of `YuMiArm.set_tool` (`CmdCodes.set_tool = 6`). -/
def set_tool (σ : PoseStore) (r : Nat) : PoseStore × String :=
  let (σ2, body) := get_pose_body σ r
  (σ2, constructReq 6 body)

/-- Model of `YuMiArm.is_pose_reachable` (`CmdCodes.is_pose_reachable = 40`). -/
def is_pose_reachable (σ : PoseStore) (r : Nat) : PoseStore × String :=
  let (σ2, body) := get_pose_body σ r
  (σ2, constructReq 40 body)

/-- Model of the wire side of `YuMiArm.ik` (`CmdCodes.ik = 42`). -/
def ik (σ : PoseStore) (r : Nat) : PoseStore × String :=
  let (σ2, body) := get_pose_body σ r
  (σ2, constructReq 42 body)

/-- Model of `YuMiArm.buffer_add_single` (`CmdCodes.buffer_add = 30`). -/
def buffer_add_single (σ : PoseStore) (r : Nat) : PoseStore × String :=
  let (σ2, body) := get_pose_body σ r
  (σ2, constructReq 30 body)

example : trimField (formatFixed 2 750) = "750" := by decide
example : trimField (formatFixed 2 (mkRat 1 2)) = "0.5" := by decide
example : trimField (formatFixed 1 (mkRat 1005 10)) = "100.5" := by decide
example : trimField (formatD 10) = "1" := by decide
example : pySplitOn '_' "yumi_joint_1_l" = ["yumi", "joint", "1", "l"] := by decide
example : pySplitWs " 1  0 ok " = ["1", "0", "ok"] := by decide
example : parseDecimal "0.5" = some (mkRat 1 2) := by decide

/-! ### Concrete inputs used by counterexamples and witnesses -/

/-- Seven joints that all carry the same valid left-arm joint name. -/
def dupJoints : List Joint := List.replicate 7 ⟨"yumi_joint_1_l", 0⟩

/-- A full set of left-arm joints presented in descending index order. -/
def revJoints : List Joint :=
  (List.range 7).reverse.map (fun i => ⟨"yumi_joint_" ++ toString (i + 1) ++ "_l", 0⟩)

/-- The same joints as `revJoints` in ascending index order. -/
def ascJoints : List Joint :=
  (List.range 7).map (fun i => ⟨"yumi_joint_" ++ toString (i + 1) ++ "_l", 0⟩)

/-- Seven joints of which the first has a name with a single
underscore-separated part. -/
def elbowJoints : List Joint :=
  ⟨"elbow", 0⟩ :: List.replicate 6 ⟨"yumi_joint_2_l", 0⟩

/-- A one-pose store used to witness the frame-effect theorem. -/
def poseStore0 : PoseStore := [⟨⟨1, 2, 3⟩, ⟨0, 0, 0, 1⟩⟩]

/-- A sample request packet. -/
def pkt0 : RequestPacket := ⟨"0 #", 5, true⟩

/-! ### Helper lemmas -/

theorem stringSingletonLength (c : Char) : (String.singleton c).length = 1 := rfl

/-- The per-joint validation succeeds exactly on structurally valid names. -/
theorem checkJointName_none_iff (armName : String) (j : Joint) :
    checkJointName armName j = none ↔ validJointName armName j := by
  unfold checkJointName validJointName
  generalize pySplitOn '_' j.name = arr
  rcases arr with _ | ⟨a0, _ | ⟨a1, _ | ⟨a2, _ | ⟨a3, _ | ⟨a4, rest⟩⟩⟩⟩⟩
  · simp
  · simp
  · simp
  · cases hp : pyParseInt a2 <;> simp [hp]
  · cases hp : pyParseInt a2 with
    | none => simp [hp]
    | some idx =>
        simp only [hp, List.length_cons, List.length_nil, List.getD, List.get?]
        split_ifs with h1 h2
        · refine iff_of_false (by simp) ?_
          rintro ⟨t, i, heq, hpi, hlo, hhi⟩
          obtain ⟨e0, e1, e2, e3⟩ : a0 = "yumi" ∧ a1 = "joint" ∧ a2 = t ∧
              a3 = String.singleton armName.front := by
            simpa using heq
          subst e0; subst e1; subst e2; subst e3
          rw [hp] at hpi
          obtain rfl : idx = i := by simpa using hpi
          rcases h1 with h | h | h | h
          · omega
          · exact h rfl
          · exact h rfl
          · exact h ⟨hlo, hhi⟩
        · refine iff_of_false (by simp) ?_
          rintro ⟨t, i, heq, hpi, hlo, hhi⟩
          obtain ⟨e0, e1, e2, e3⟩ : a0 = "yumi" ∧ a1 = "joint" ∧ a2 = t ∧
              a3 = String.singleton armName.front := by
            simpa using heq
          subst e3
          rcases h2 with h | h
          · exact h (stringSingletonLength _)
          · exact h rfl
        · refine iff_of_true rfl ?_
          push_neg at h1
          obtain ⟨hlen, h0, h1j, hrange⟩ := h1
          push_neg at h2
          obtain ⟨-, h3⟩ := h2
          simp only [Option.getD_some] at h0 h1j h3
          exact ⟨a2, idx, by rw [h0, h1j, h3], hp, hrange.1, hrange.2⟩
  · cases hp : pyParseInt a2 <;> simp [hp]

/-- The validation loop succeeds exactly when every joint passes. -/
theorem checkJoints_none_iff (armName : String) (J : List Joint) :
    checkJoints armName J = none ↔ ∀ j ∈ J, checkJointName armName j = none := by
  induction J with
  | nil => simp [checkJoints]
  | cons j rest ih =>
      simp only [checkJoints]
      cases h : checkJointName armName j <;> simp [h, ih]

/-- Setting the element just appended to a store does not disturb any
existing index. -/
theorem store_set_append_getD (σ : PoseStore) (r : Nat) (h : r < σ.length)
    (p q : Pose) :
    ((σ ++ [p]).set σ.length q).getD r default = σ.getD r default := by
  rw [List.getD_eq_getElem?_getD, List.getD_eq_getElem?_getD,
    List.getElem?_set_ne (by omega), List.getElem?_append, if_pos h]

/-- The wire-body builder only writes to the freshly copied pose. -/
theorem get_pose_body_store (σ : PoseStore) (r : Nat) (h : r < σ.length) :
    (get_pose_body σ r).1.getD r default = σ.getD r default :=
  store_set_append_getD σ r h _ _

/-! ### C1 -/

/-- C1 (code bug): the speed cache of `YuMi.set_v` never becomes hot.  After
a successful `set_v(100)` from the initial state the cache is still None, so
an immediately following `set_v(100)` issues a second pair of `set_speed`
wire commands instead of being a no-op; and after a failed pair the cache is
unchanged as well.  The claim promised exactly one pair for two consecutive
identical calls. -/
theorem set_v_reissues_after_success :
    (set_v none 100 true).1 = none ∧
    (set_v none 100 true).2.1 =
      [⟨"left", "8 100 500 100 500 #"⟩, ⟨"right", "8 100 500 100 500 #"⟩] ∧
    (set_v (set_v none 100 true).1 100 true).2.1 =
      [⟨"left", "8 100 500 100 500 #"⟩, ⟨"right", "8 100 500 100 500 #"⟩] ∧
    (set_v none 100 false).1 = none := by decide

/-! ### C2 -/

/-- C2 (counterexample): on the supervisor-wins branch of both
`move_to_pose` and `move_both_arms`, `recover()` runs strictly before the
motion mutex is released, refuting the claim that recovery only happens
after the motion has released the mutex. -/
theorem recover_inside_lock_on_program_stopped :
    (move_to_pose_trace .programStopped).indexOf MotionEv.runRecover <
      (move_to_pose_trace .programStopped).indexOf MotionEv.releaseLock ∧
    (move_both_arms_trace .programStopped).indexOf MotionEv.runRecover <
      (move_both_arms_trace .programStopped).indexOf MotionEv.releaseLock := by decide

/-- C2 (amended): in every execution of `move_to_pose` or `move_both_arms`
in which the supervisor raises the program-stopped condition, `recover()`
runs while the motion mutex is still held: strictly after the acquisition
and strictly before the release performed by the with-block on exit. -/
theorem recover_runs_while_motion_lock_held :
    ∀ (o : MotionOutcome) (tr : List MotionEv),
      tr = move_to_pose_trace o ∨ tr = move_both_arms_trace o →
      MotionEv.runRecover ∈ tr →
      tr.indexOf MotionEv.acquireLock < tr.indexOf MotionEv.runRecover ∧
      tr.indexOf MotionEv.runRecover < tr.indexOf MotionEv.releaseLock := by
  intro o tr h hmem
  rcases h with h | h <;> subst h <;> revert hmem <;> cases o <;> decide

/-- C2 witness: the amended statement applied to the program-stopped trace
of `move_to_pose`. -/
theorem recover_runs_while_motion_lock_held_witness :
    (move_to_pose_trace .programStopped).indexOf MotionEv.acquireLock <
      (move_to_pose_trace .programStopped).indexOf MotionEv.runRecover ∧
    (move_to_pose_trace .programStopped).indexOf MotionEv.runRecover <
      (move_to_pose_trace .programStopped).indexOf MotionEv.releaseLock :=
  recover_runs_while_motion_lock_held .programStopped
    (move_to_pose_trace .programStopped) (Or.inl rfl) (by decide)

/-! ### C3 -/

/-- C3 (code bug): trimming trailing zero characters does not preserve the
parsed value for the conf-integer d format: 10 is trimmed to the token 1,
which parses back to 1, not 10; 0 is trimmed to the empty token, which does
not parse at all; and the driver frames its own default configuration
`set_conf([0, 0, 0, 4])` as a body whose first three fields have vanished. -/
theorem integer_field_trimming_breaks_round_trip :
    trimField (formatD 10) = "1" ∧ parseDecimal "1" = some 1 ∧ (1 : ℚ) ≠ 10 ∧
    trimField (formatD 0) = "" ∧ parseDecimal "" = none ∧
    set_conf [0, 0, 0, 4] = "10    4 #" := by decide

/-! ### C7 -/

/-- C7: `recover()` attempts stop_RAPID, then reset_pp, then start_RAPID, in
this order and regardless of the outcomes of the first two (their RWS errors
are swallowed); a start_RAPID failure is fatal, raised to the caller with
the arms untouched and the speed cache unchanged; on success both arm
sessions are reconnected (each closing its three sockets and opening three
new ones at port offsets 0, 2 and 4), the default configuration is
re-applied, and the speed cache is invalidated. -/
theorem recover_protocol :
    ∀ (o : RwsOutcome) (s : Option Int),
      (recover o s).1.take 3 = [RecEv.stopRAPID, RecEv.resetPP, RecEv.startRAPID] ∧
      ((recover o s).2.1 = false ↔ o.startOk = false) ∧
      (∀ (a b a2 b2 : Bool),
        recover ⟨a, b, o.startOk⟩ s = recover ⟨a2, b2, o.startOk⟩ s) ∧
      (o.startOk = false →
        (recover o s).1 = [RecEv.stopRAPID, RecEv.resetPP, RecEv.startRAPID] ∧
        (recover o s).2.2 = s) ∧
      (o.startOk = true →
        (recover o s).1 =
          [RecEv.stopRAPID, RecEv.resetPP, RecEv.startRAPID] ++
            reconnectTrace "left" ++ reconnectTrace "right" ++
            [RecEv.applyDefaultConfiguration] ∧
        (recover o s).2.2 = none) := by
  intro o s
  rcases o with ⟨a, b, c⟩
  cases c <;> simp [recover, reconnectTrace]

/-- C7 witness: recovery from a cached speed of 750 with failing best-effort
calls and a successful start_RAPID performs the full reconnect sequence and
clears the speed cache. -/
theorem recover_protocol_witness :
    (recover ⟨false, false, true⟩ (some 750)).1 =
      [RecEv.stopRAPID, RecEv.resetPP, RecEv.startRAPID] ++
        reconnectTrace "left" ++ reconnectTrace "right" ++
        [RecEv.applyDefaultConfiguration] ∧
    (recover ⟨false, false, true⟩ (some 750)).2.2 = none :=
  (recover_protocol ⟨false, false, true⟩ (some 750)).2.2.2.2 rfl

/-! ### C8 -/

/-- C8 (counterexample): at speed factor 0.3331 and the default
max_tcp_speed of 1.5, the speed number handed to `set_v` is the truncation
499, while rounding the same product 499.65 gives 500. -/
theorem speed_number_differs_from_rounding :
    motionSpeedNumber (mkRat 3331 10000) (mkRat 3 2) = 499 ∧
    pyRound (mkRat 3331 10000 * mkRat 3 2 * 1000) = 500 ∧
    (499 : Int) ≠ 500 := by
  refine ⟨by decide, ?_, by decide⟩
  have h : (mkRat 3331 10000 : ℚ) * mkRat 3 2 * 1000 =
      qscale 1000 (qmul (mkRat 3331 10000) (mkRat 3 2)) := by
    rw [qscale_eq, qmul_eq]; push_cast; ring
  rw [h]; decide

/-- C8 (amended): for speed factors and maximum speeds at least 0, the speed
number given to `set_v` by the motion calls equals the truncation
`int(speed * max_tcp_speed * 1000)` = the floor of that non-negative
product, not its rounding; and the speed data tuple for speed number n is
(n, 500, n, 500). -/
theorem speed_number_is_truncation :
    ∀ (s m : ℚ), 0 ≤ s → 0 ≤ m →
      motionSpeedNumber s m = ⌊s * m * 1000⌋ ∧
      ∀ n : Int, get_v n = ((n : ℚ), 500, (n : ℚ), 500) := by
  intro s m hs hm
  refine ⟨?_, fun n => rfl⟩
  rw [motionSpeedNumber]
  have he : qscale 1000 (qmul s m) = s * m * 1000 := by
    rw [qscale_eq, qmul_eq]; push_cast; ring
  rw [he, pyTrunc_eq_floor]
  positivity

/-- C8 witness: the amended statement at speed factor 0.5 and max_tcp_speed
1.5, where the speed number is 750. -/
theorem speed_number_is_truncation_witness :
    motionSpeedNumber (mkRat 1 2) (mkRat 3 2) = ⌊(mkRat 1 2 : ℚ) * mkRat 3 2 * 1000⌋ ∧
    get_v 750 = ((750 : ℚ), 500, (750 : ℚ), 500) :=
  ⟨(speed_number_is_truncation (mkRat 1 2) (mkRat 3 2) (by decide) (by decide)).1,
   (speed_number_is_truncation (mkRat 1 2) (mkRat 3 2) (by decide) (by decide)).2 750⟩


/-! ### C4 -/

/-- C4 (counterexample): a list of seven copies of the same valid joint name
is accepted by `goto_joints` although its names are not a permutation of the
seven per-index names (the index-2 name does not occur), refuting the
permutation part of the claim. -/
theorem duplicate_joint_names_accepted :
    goto_joints "left" dupJoints = .ok (dupJoints, "2 0 0 0 0 0 0 0 #") ∧
    "yumi_joint_2_l" ∉ dupJoints.map Joint.name ∧
    dupJoints.length = 7 := by decide

/-- C4 (amended): every joints list accepted by `goto_joints` has exactly 7
joints, each of whose names splits into the four parts yumi, joint, an index
token parsing to some i with 1 ≤ i ≤ 7, and the side letter of that arm
(duplicate indices are not rejected, so the names need not form a
permutation); the framed body is built from a permutation of the input
sorted by joint index, and `goto_joints_sync` accepts the same list with the
same sorted order. -/
theorem goto_joints_accepted_contract :
    ∀ (armName : String) (J : List Joint) (out : List Joint × String),
      goto_joints armName J = .ok out →
        J.length = 7 ∧ (∀ j ∈ J, validJointName armName j) ∧
        out.1.Perm J ∧ List.Sorted jointLe out.1 ∧
        out.2 = constructReq 2 (jointsToStr out.1) ∧
        goto_joints_sync armName J =
          .ok (out.1, constructReq 12 (jointsToStr out.1)) := by
  intro armName J out h
  rw [goto_joints, check_and_sort_joints] at h
  split_ifs at h with hlen
  · simp [Except.map] at h
  · cases hc : checkJoints armName J with
    | some e => rw [hc] at h; simp [Except.map] at h
    | none =>
        rw [hc] at h
        obtain rfl : (J.insertionSort jointLe,
            constructReq 2 (jointsToStr (J.insertionSort jointLe))) = out := by
          simpa [Except.map] using h
        push_neg at hlen
        refine ⟨hlen, ?_, ?_, ?_, rfl, ?_⟩
        · intro j hj
          exact (checkJointName_none_iff armName j).mp
            ((checkJoints_none_iff armName J).mp hc j hj)
        · exact List.perm_insertionSort jointLe J
        · exact List.sorted_insertionSort jointLe J
        · rw [goto_joints_sync, check_and_sort_joints, if_neg (by omega), hc]
          rfl

/-- C4 witness: the amended contract applied to a full set of left-arm
joints presented in descending order, which is accepted and framed in
ascending order. -/
theorem goto_joints_accepted_contract_witness :
    revJoints.length = 7 ∧ (∀ j ∈ revJoints, validJointName "left" j) ∧
    ascJoints.Perm revJoints ∧ List.Sorted jointLe ascJoints ∧
    "2 0 0 0 0 0 0 0 #" = constructReq 2 (jointsToStr ascJoints) ∧
    goto_joints_sync "left" revJoints =
      .ok (ascJoints, constructReq 12 (jointsToStr ascJoints)) :=
  goto_joints_accepted_contract "left" revJoints
    (ascJoints, "2 0 0 0 0 0 0 0 #") (by decide)

/-! ### C5 -/

/-- C5 (counterexample): gripper inputs are not clamped.  `open_gripper`
with force 100 N sends 100 on the wire with no range check at all, and
`close_gripper` with force 100 N raises ValueError instead of clamping to
the 20 N maximum. -/
theorem gripper_force_not_clamped :
    open_gripper (some 100) none false = "21 100 #" ∧
    MAX_GRIPPER_FORCE < 100 ∧
    close_gripper 100 0 false = .error .valueError := by decide

/-- C5 (amended): `close_gripper` raises ValueError exactly when the force
leaves [0, MAX_GRIPPER_FORCE] or the width leaves [0, MAX_GRIPPER_WIDTH];
in-range inputs are sent with the width converted to millimeters and a
trailing 0 field appended exactly when no_wait is set; `open_gripper`
performs no range check: it sends the given force unmodified (defaulting to
MAX_GRIPPER_FORCE), the width in millimeters when given, and the same
trailing no_wait field. -/
theorem gripper_range_check_contract :
    ∀ (force width : ℚ) (noWait : Bool),
      (close_gripper force width noWait = .error .valueError ↔
        ¬(0 ≤ force ∧ force ≤ MAX_GRIPPER_FORCE ∧
          0 ≤ width ∧ width ≤ MAX_GRIPPER_WIDTH)) ∧
      (0 ≤ force → force ≤ MAX_GRIPPER_FORCE → 0 ≤ width →
        width ≤ MAX_GRIPPER_WIDTH →
        close_gripper force width noWait =
          .ok (constructReq 20 (iterToStr (formatFixed 1)
            ([force, qscale 1000 width] ++ (if noWait then [(0 : ℚ)] else []))))) ∧
      (∀ fo : Option ℚ,
        open_gripper fo (some width) noWait =
          constructReq 21 (iterToStr (formatFixed 1)
            ([fo.getD MAX_GRIPPER_FORCE, qscale 1000 width] ++
              (if noWait then [(0 : ℚ)] else [])))) := by
  intro force width noWait
  refine ⟨?_, ?_, ?_⟩
  · rw [close_gripper]
    split_ifs with h1 h2
    · exact iff_of_true rfl
        (by rintro ⟨hf0, hf20, -, -⟩; rcases h1 with h | h <;> linarith)
    · exact iff_of_true rfl
        (by rintro ⟨-, -, hw0, hw20⟩; rcases h2 with h | h <;> linarith)
    · refine iff_of_false (by simp) ?_
      push_neg at h1 h2
      exact not_not_intro ⟨h1.1, h1.2, h2.1, h2.2⟩
  · intro hf0 hf20 hw0 hw20
    rw [close_gripper, if_neg (by push_neg; exact ⟨hf0, hf20⟩),
      if_neg (by push_neg; exact ⟨hw0, hw20⟩)]
  · intro fo
    rfl

/-- C5 witness: the amended contract at force 10 N, width 0.01 m and
no_wait set, whose wire body carries 10, 10 and the trailing 0. -/
theorem gripper_range_check_contract_witness :
    (close_gripper 10 (mkRat 1 100) true = .error .valueError ↔
      ¬(0 ≤ (10 : ℚ) ∧ (10 : ℚ) ≤ MAX_GRIPPER_FORCE ∧
        0 ≤ mkRat 1 100 ∧ mkRat 1 100 ≤ MAX_GRIPPER_WIDTH)) ∧
    close_gripper 10 (mkRat 1 100) true = .ok "20 10 10 0 #" ∧
    open_gripper none (some (mkRat 1 100)) true = "21 20 10 0 #" := by
  have h := gripper_range_check_contract 10 (mkRat 1 100) true
  refine ⟨h.1, ?_, ?_⟩
  · rw [h.2.1 (by decide) (by decide) (by decide) (by decide)]; decide
  · rw [h.2.2 none]; decide

/-! ### C6 -/

/-- C6: classification of a received response by the session layer.  An
empty receive, fewer than two whitespace tokens, or a non-integer first or
second token each raise a communication failure; a well-formed response with
result code 0 (failure) raises the control error carrying the original
request packet and the raw response; a result code 1 (success) response is
returned to the caller. -/
theorem response_classification :
    ∀ (pkt : RequestPacket) (recv : String),
      (recv = "" → armRequest pkt recv = .error (.comm "Empty response.")) ∧
      (recv ≠ "" → (pySplitWs recv).length < 2 →
        armRequest pkt recv = .error (.comm "Invalid response.")) ∧
      (∀ t0 t1 rest, recv ≠ "" → pySplitWs recv = t0 :: t1 :: rest →
        (pyParseInt t0 = none ∨ pyParseInt t1 = none) →
        armRequest pkt recv = .error (.comm "Invalid response.")) ∧
      (∀ t0 t1 rest a, recv ≠ "" → pySplitWs recv = t0 :: t1 :: rest →
        pyParseInt t0 = some a → pyParseInt t1 = some 0 →
        armRequest pkt recv =
          .error (.control pkt ⟨a, 0, String.intercalate " " rest⟩)) ∧
      (∀ t0 t1 rest a, recv ≠ "" → pySplitWs recv = t0 :: t1 :: rest →
        pyParseInt t0 = some a → pyParseInt t1 = some 1 →
        armRequest pkt recv = .ok ⟨a, 1, String.intercalate " " rest⟩) := by
  intro pkt recv
  refine ⟨?_, ?_, ?_, ?_, ?_⟩
  · intro h
    rw [armRequest, send_request, if_pos h]
  · intro h hlen
    rw [armRequest, send_request, if_neg h]
    rcases hs : pySplitWs recv with _ | ⟨t0, _ | ⟨t1, rest⟩⟩
    · rfl
    · rfl
    · rw [hs] at hlen; simp at hlen; omega
  · intro t0 t1 rest h hs hor
    rcases hor with h0 | h1
    · cases hq : pyParseInt t1 <;>
        simp only [armRequest, send_request, if_neg h, hs, h0, hq]
    · cases hq : pyParseInt t0 <;>
        simp only [armRequest, send_request, if_neg h, hs, hq, h1]
  · intro t0 t1 rest a h hs hp0 hp1
    simp only [armRequest, send_request, if_neg h, hs, hp0, hp1]
    simp
  · intro t0 t1 rest a h hs hp0 hp1
    simp only [armRequest, send_request, if_neg h, hs, hp0, hp1]
    simp

/-- C6 witness: the classification applied to one concrete receive of each
kind. -/
theorem response_classification_witness :
    armRequest pkt0 "" = .error (.comm "Empty response.") ∧
    armRequest pkt0 "12" = .error (.comm "Invalid response.") ∧
    armRequest pkt0 "ab 1" = .error (.comm "Invalid response.") ∧
    armRequest pkt0 "12 0 infeasible pose" =
      .error (.control pkt0 ⟨12, 0, "infeasible pose"⟩) ∧
    armRequest pkt0 "12 1 pose data" = .ok ⟨12, 1, "pose data"⟩ :=
  ⟨(response_classification pkt0 "").1 rfl,
   (response_classification pkt0 "12").2.1 (by decide) (by decide),
   (response_classification pkt0 "ab 1").2.2.1 "ab" "1" [] (by decide)
     (by decide) (Or.inl (by decide)),
   (response_classification pkt0 "12 0 infeasible pose").2.2.2.1 "12" "0"
     ["infeasible", "pose"] 12 (by decide) (by decide) (by decide) (by decide),
   (response_classification pkt0 "12 1 pose data").2.2.2.2 "12" "1"
     ["pose", "data"] 12 (by decide) (by decide) (by decide) (by decide)⟩

/-! ### C9 -/

/-- C9: every pose-taking per-arm operation (`goto_pose`, `goto_pose_sync`,
`set_tool`, `is_pose_reachable`, `ik`, `buffer_add_single`) leaves the
pose referred to by the caller unchanged in the store, because
`_get_pose_body` deep-copies the pose to a fresh reference before scaling
the position of the copy from meters to millimeters in place. -/
theorem pose_argument_preserved :
    ∀ (σ : PoseStore) (r : Nat) (lin : Bool), r < σ.length →
      (goto_pose σ r lin).1.getD r default = σ.getD r default ∧
      (goto_pose_sync σ r).1.getD r default = σ.getD r default ∧
      (set_tool σ r).1.getD r default = σ.getD r default ∧
      (is_pose_reachable σ r).1.getD r default = σ.getD r default ∧
      (ik σ r).1.getD r default = σ.getD r default ∧
      (buffer_add_single σ r).1.getD r default = σ.getD r default := by
  intro σ r lin h
  have hb := get_pose_body_store σ r h
  exact ⟨hb, hb, hb, hb, hb, hb⟩

/-- C9 witness: the preservation applied to a one-pose store; the caller
still sees the pose in meters after a linear `goto_pose`. -/
theorem pose_argument_preserved_witness :
    (goto_pose poseStore0 0 true).1.getD 0 default = poseStore0.getD 0 default ∧
    (goto_pose_sync poseStore0 0).1.getD 0 default = poseStore0.getD 0 default ∧
    (set_tool poseStore0 0).1.getD 0 default = poseStore0.getD 0 default ∧
    (is_pose_reachable poseStore0 0).1.getD 0 default = poseStore0.getD 0 default ∧
    (ik poseStore0 0).1.getD 0 default = poseStore0.getD 0 default ∧
    (buffer_add_single poseStore0 0).1.getD 0 default = poseStore0.getD 0 default :=
  pose_argument_preserved poseStore0 0 true (by decide)

/-! ### C10 -/

/-- C10: a seven-joint list whose first joint is named elbow (a single
underscore-separated part) makes the validation read `arr[2]` before the
part-count check, so an uncaught IndexError escapes instead of the
invalid-joint-name YumiException, and `goto_joints`, `goto_joints_sync` and
`fk` propagate it to the public interface. -/
theorem short_joint_name_raises_index_error :
    check_and_sort_joints "left" elbowJoints = .error .indexError ∧
    goto_joints "left" elbowJoints = .error .indexError ∧
    goto_joints_sync "left" elbowJoints = .error .indexError ∧
    fk "left" elbowJoints = .error .indexError ∧
    CheckErr.indexError ≠ .yumi "Invalid format of joint name: elbow." := by decide

end Yumi
